import Mathlib

/-!
Shallow embedding of `gsm-voice-routing.c` (GTA04 gsm voice routing utility).

The program bridges two ALSA sound cards: four streams `r0, p0` (internal
card) and `r1, p1` (UMTS modem card), each with one channel, 16-bit samples,
rate 8000, period 256 frames, buffer 1024 frames.  We model:

* `route_stream`   — the `struct route_stream`, with the native pcm handle as
  `Option Nat` (`none` = the C null pointer) and the period buffer as
  `Option (List Int)` (`none` = null, `some bytes` = allocated contents);
* `open_route_stream`, `close_route_stream`, `open_route_stream_repeated` —
  the lifecycle, with the outcomes of the ALSA negotiation calls supplied by
  an `OpenEnv` oracle record (one field per ALSA call in the C code) and the
  retry loop given explicit fuel (the C loop is `for (;;)`);
* `route_stream_read` / `route_stream_write` — the transfer primitives, with
  the `snd_pcm_readi`/`snd_pcm_writei` return code supplied by the
  environment; the results record whether device I/O was issued and whether
  `snd_pcm_prepare` was called;
* `loopStep` / `runLoop` / `mainRun` — one iteration of `main`'s routing
  loop, a run over a script of per-iteration device outcomes and the single
  `cleanup` pass that follows the loop.

Machine integers: the C return codes are small negative ints; all arithmetic
here is exact (`Int`), no overflow is possible in the modelled paths.
-/

/-! ### Error codes (the `#define ERR_*` constants) -/

def ERR_PCM_OPEN_FAILED : Int := -1
def ERR_HW_PARAMS_ANY : Int := -2
def ERR_HW_PARAMS_SET_ACCESS : Int := -3
def ERR_HW_PARAMS_SET_FORMAT : Int := -4
def ERR_HW_PARAMS_SET_CHANNELS : Int := -5
def ERR_HW_PARAMS_SET_RATE : Int := -6
def ERR_SW_PARAMS_CURRENT : Int := -7
def ERR_HW_PARAMS_SET_PERIOD_SIZE : Int := -8
def ERR_HW_PARAMS_SET_BUFFER_SIZE : Int := -9
def ERR_HW_PARAMS : Int := -10
def ERR_BUFFER_ALLOC_FAILED : Int := -11
def ERR_SW_PARAMS_SET_START_THRESHOLD : Int := -12
def ERR_SW_PARAMS_SET_STOP_THRESHOLD : Int := -13
def ERR_SW_PARAMS : Int := -14
def ERR_READ_OVERRUN : Int := -15
def ERR_READ : Int := -16
def ERR_SHORT_READ : Int := -17
def ERR_WRITE_UNDERRUN : Int := -18
def ERR_WRITE : Int := -19
def ERR_SHORT_WRITE : Int := -20
def ERR_TERMINATING : Int := -21

/-- Linux `EPIPE` errno; `snd_pcm_readi`/`snd_pcm_writei` return `-EPIPE` on
overrun/underrun. -/
def EPIPE : Int := 32

/-! ### The stream structure (`struct route_stream`) -/

/-- `struct route_stream`.  Configuration fields (`start_threshold`,
`stop_threshold`, `buffer_size`, `period_size`) are the "in" fields of the C
struct; `handle` models the `snd_pcm_t *handle` pointer (`none` = null) and
`period_buffer` the malloc'd buffer (`none` = null, `some l` = allocated
with contents `l`).  `hwparams`/`swparams` are alloca'd scratch in the C
code and carry no cross-call state, so they are not modelled. -/
structure route_stream where
  start_threshold : Nat
  stop_threshold : Nat
  buffer_size : Nat
  period_size : Nat
  handle : Option Nat
  period_buffer : Option (List Int)
  period_buffer_size : Nat
deriving Repr, DecidableEq

/-- The `err` helper: when `terminating` is set it returns `ERR_TERMINATING`
instead of the given return code (logging is not modelled). -/
def err (terminating : Bool) (return_code : Int) : Int :=
  if terminating then ERR_TERMINATING else return_code

/-! ### Opening (`open_route_stream`) -/

/-- Environment for one `open_route_stream` call: the result of each ALSA
library call made inside it, in source order.  `pcm_open` is the result of
`snd_pcm_open`: on success it yields the new (abstract) handle, on failure
the negative return code and the handle pointer is left unassigned. -/
structure OpenEnv where
  pcm_open : Except Int Nat
  hw_params_any : Int
  set_access : Int
  set_format : Int
  set_channels : Int
  set_rate : Int
  set_period_size : Int
  set_buffer_size : Int
  hw_params : Int
  malloc_ok : Bool
  sw_params_current : Int
  set_start_threshold : Int
  set_stop_threshold : Int
  sw_params : Int
deriving Repr

/-- `open_route_stream`.  Follows the C function step for step: each failing
ALSA call returns the corresponding error code *without undoing the steps
already performed* (in particular the handle stays set once `snd_pcm_open`
succeeded, and the buffer stays allocated once `malloc` succeeded).  The
malloc'd buffer contents are uninitialized in C; they are modelled as
zeros, which no modelled path observes before overwriting. -/
def open_route_stream (terminating : Bool) (env : OpenEnv) (s : route_stream) :
    Int × route_stream :=
  match env.pcm_open with
  | .error _ => (err terminating ERR_PCM_OPEN_FAILED, s)
  | .ok h =>
    let s := { s with handle := some h }
    if env.hw_params_any < 0 then (err terminating ERR_HW_PARAMS_ANY, s)
    else if env.set_access < 0 then (err terminating ERR_HW_PARAMS_SET_ACCESS, s)
    else if env.set_format < 0 then (err terminating ERR_HW_PARAMS_SET_FORMAT, s)
    else if env.set_channels < 0 then (err terminating ERR_HW_PARAMS_SET_CHANNELS, s)
    else if env.set_rate < 0 then (err terminating ERR_HW_PARAMS_SET_RATE, s)
    else if env.set_period_size < 0 then (err terminating ERR_HW_PARAMS_SET_PERIOD_SIZE, s)
    else if env.set_buffer_size < 0 then (err terminating ERR_HW_PARAMS_SET_BUFFER_SIZE, s)
    else if env.hw_params < 0 then (err terminating ERR_HW_PARAMS, s)
    else
      let s := { s with period_buffer_size := 2 * s.period_size }
      if ¬ env.malloc_ok then
        ((err terminating ERR_BUFFER_ALLOC_FAILED), { s with period_buffer := none })
      else
        let s := { s with period_buffer := some (List.replicate (2 * s.period_size) 0) }
        if s.start_threshold > 0 ∨ s.stop_threshold > 0 then
          if env.sw_params_current < 0 then (err terminating ERR_SW_PARAMS_CURRENT, s)
          else if s.start_threshold > 0 ∧ env.set_start_threshold < 0 then
            (err terminating ERR_SW_PARAMS_SET_START_THRESHOLD, s)
          else if s.stop_threshold > 0 ∧ env.set_stop_threshold < 0 then
            (err terminating ERR_SW_PARAMS_SET_STOP_THRESHOLD, s)
          else if env.sw_params < 0 then (err terminating ERR_SW_PARAMS, s)
          else (0, s)
        else (0, s)

/-! ### Closing (`close_route_stream`) -/

/-- Observable resource releases performed by `close_route_stream`:
`closedHandle h` models `snd_pcm_close(handle)`, `freedBuffer` models
`free(period_buffer)`. -/
inductive CloseEvent where
  | closedHandle (h : Nat)
  | freedBuffer
deriving Repr, DecidableEq

/-- `close_route_stream`: early return when the handle is null (the buffer is
then *not* freed); otherwise close the handle, null it, then free the buffer
if non-null and null it.  The C function always returns 0, so only the state
and the release events are modelled. -/
def close_route_stream (s : route_stream) : route_stream × List CloseEvent :=
  match s.handle with
  | none => (s, [])
  | some h =>
    let s1 : route_stream := { s with handle := none }
    match s1.period_buffer with
    | none => (s1, [CloseEvent.closedHandle h])
    | some _ =>
      ({ s1 with period_buffer := none }, [CloseEvent.closedHandle h, CloseEvent.freedBuffer])

/-! ### Retrying (`open_route_stream_repeated`) -/

/-- The body of `open_route_stream_repeated`'s `for (;;)` loop, with explicit
fuel.  `i` is the index of the next attempt (the attempt uses oracle
`envs i`), `sleeps` counts the `usleep(1000 * 100)` calls performed so far.
On success returns `some (attempts, sleeps, opened stream)`; `none` means
the fuel ran out while `open_route_stream` kept failing (the C loop would
still be running). -/
def openRepeatedAux (envs : Nat → OpenEnv) (i sleeps : Nat) (s : route_stream) :
    Nat → Option (Nat × Nat × route_stream)
  | 0 => none
  | Nat.succ fuel =>
    let r := open_route_stream false (envs i) s
    if r.1 = 0 then some (i + 1, sleeps, r.2)
    else openRepeatedAux envs (i + 1) (sleeps + 1) (close_route_stream r.2).1 fuel

/-- `open_route_stream_repeated`, from attempt 0 with no sleeps yet. -/
def open_route_stream_repeated (envs : Nat → OpenEnv) (s : route_stream) (fuel : Nat) :
    Option (Nat × Nat × route_stream) :=
  openRepeatedAux envs 0 0 s fuel

/-! ### Transfer primitives (`route_stream_read`, `route_stream_write`) -/

/-- Device-side outcome of one `snd_pcm_readi` call: the return code `rc`
(frames read, or a negative error) and the sample data the device deposited
in the period buffer when `rc ≥ 0`. -/
structure ReadOutcome where
  rc : Int
  data : List Int
deriving Repr, DecidableEq

/-- Result of `route_stream_read`: the C return value, the stream state
after the call, whether `snd_pcm_readi` was invoked at all, and whether
`snd_pcm_prepare` (device reset) was invoked. -/
structure ReadResult where
  ret : Int
  st : route_stream
  issuedReadi : Bool
  prepared : Bool
deriving Repr, DecidableEq

/-- `route_stream_read`: short-circuits on `terminating` with no device I/O;
otherwise calls `snd_pcm_readi` (the device fills the period buffer when the
return code is non-negative), returns 0 on a full period, resets the device
and returns `ERR_READ_OVERRUN` on `-EPIPE`, `ERR_READ` on any other negative
code, `ERR_SHORT_READ` otherwise. -/
def route_stream_read (terminating : Bool) (dev : ReadOutcome) (s : route_stream) :
    ReadResult :=
  if terminating then ⟨ERR_TERMINATING, s, false, false⟩
  else
    let s1 := if 0 ≤ dev.rc then { s with period_buffer := some dev.data } else s
    if dev.rc = (s.period_size : Int) then ⟨0, s1, true, false⟩
    else if dev.rc = -EPIPE then ⟨ERR_READ_OVERRUN, s1, true, true⟩
    else if dev.rc < 0 then ⟨err terminating ERR_READ, s1, true, false⟩
    else ⟨err terminating ERR_SHORT_READ, s1, true, false⟩

/-- Result of `route_stream_write`: the C return value, the (unchanged)
stream state, whether `snd_pcm_writei` was invoked, whether
`snd_pcm_prepare` was invoked, and the bytes handed to the device
(`none` when no device I/O happened). -/
structure WriteResult where
  ret : Int
  st : route_stream
  issuedWritei : Bool
  prepared : Bool
  written : Option (List Int)
deriving Repr, DecidableEq

/-- `route_stream_write`: short-circuits on `terminating` with no device I/O;
otherwise calls `snd_pcm_writei` with the period buffer (`wrc` is the device
return code), returns 0 on a full period, resets the device and returns
`ERR_WRITE_UNDERRUN` on `-EPIPE`, `ERR_WRITE` on any other negative code,
`ERR_SHORT_WRITE` otherwise. -/
def route_stream_write (terminating : Bool) (wrc : Int) (s : route_stream) :
    WriteResult :=
  if terminating then ⟨ERR_TERMINATING, s, false, false, none⟩
  else if wrc = (s.period_size : Int) then ⟨0, s, true, false, s.period_buffer⟩
  else if wrc = -EPIPE then ⟨ERR_WRITE_UNDERRUN, s, true, true, s.period_buffer⟩
  else if wrc < 0 then ⟨err terminating ERR_WRITE, s, true, false, s.period_buffer⟩
  else ⟨err terminating ERR_SHORT_WRITE, s, true, false, s.period_buffer⟩

/-! ### Status indicator (`set_aux_leds`, `blink_aux`) -/

/-- LED state: red and green brightness as booleans. -/
structure LedState where
  red : Bool
  green : Bool
deriving Repr, DecidableEq

/-- `set_aux_leds`: writes the two sysfs brightness files only when the
requested state differs from the cached one (file writes not modelled). -/
def set_aux_leds (st : LedState) (red green : Bool) : LedState :=
  if st.red = red ∧ st.green = green then st else ⟨red, green⟩

/-- `blink_aux`: rate-limited to once per clock second; when a new second
has begun, swaps the red LED and moves its old value to green. -/
def blink_aux (last_blink_secs tv_sec : Int) (st : LedState) : Int × LedState :=
  if tv_sec = last_blink_secs then (last_blink_secs, st)
  else (tv_sec, set_aux_leds st (!st.red) st.red)

/-! ### The routing loop of `main` -/

/-- Which echo-conditioner block is compiled in.  The shipped source defines
`USE_SPEEX_AEC` (line 58); `USE_WALKIE_TALKIE_AEC` is commented out (line
61); `noAec` is the configuration with neither block, i.e. no conditioner
configured. -/
inductive AecMode where
  | noAec
  | speexAec
deriving Repr, DecidableEq

/-- Device outcomes for one iteration of the routing loop: the `snd_pcm_readi`
outcomes for `r0` (local capture) and `r1` (remote capture) and the
`snd_pcm_writei` return codes for `p0` (local playback) and `p1` (remote
playback). -/
structure IterInput where
  r0dev : ReadOutcome
  r1dev : ReadOutcome
  p0rc : Int
  p1rc : Int
deriving Repr, DecidableEq

/-- The mutable state the routing loop acts on: the four streams and the
`started` flag of `main`. -/
structure LoopState where
  started : Bool
  p0 : route_stream
  r0 : route_stream
  p1 : route_stream
  r1 : route_stream
deriving Repr, DecidableEq

/-- Outcome of one iteration of the `while (!terminating)` loop body:

* `restart st blinked` — a `continue` was executed (`blinked` records whether
  `blink_aux()` ran first, which happens exactly on the `r0` read failure
  path);
* `hangup st` — the `break` on `rc == ERR_READ && started` was executed;
* `forwarded st w0 w1` — the iteration ran to the end; `w0`/`w1` are the
  bytes handed to `snd_pcm_writei` for `p0`/`p1` (`none` if no I/O). -/
inductive IterResult where
  | restart (st : LoopState) (blinked : Bool)
  | hangup (st : LoopState)
  | forwarded (st : LoopState) (w0 w1 : Option (List Int))
deriving Repr, DecidableEq

/-- The echo-conditioner section of the loop body.  With `USE_SPEEX_AEC`,
`speex_echo_cancellation(echo_state, r0.period_buffer, p0.period_buffer,
p1.period_buffer)` writes the cancelled near-end signal into `p1`'s period
buffer (`cancel` abstracts the speex filter: near-end samples and far-end
reference in, cleaned samples out), then `memmove` copies `r1`'s period
buffer over `p0`'s.  With neither AEC macro defined, the section is empty:
no data moves between the capture and playback buffers. -/
def applyAec (aec : AecMode) (cancel : List Int → List Int → List Int)
    (st : LoopState) : LoopState :=
  match aec with
  | .noAec => st
  | .speexAec =>
    let p1buf := cancel (st.r0.period_buffer.getD []) (st.p0.period_buffer.getD [])
    let st1 := { st with p1 := { st.p1 with period_buffer := some p1buf } }
    { st1 with p0 := { st1.p0 with period_buffer := st1.r1.period_buffer } }

/-- One iteration of the routing-loop body of `main`, in source order:
read `r0` (on any failure: `blink_aux(); continue`), read `r1` (on
`ERR_READ && started`: log and `break`; on any other failure: `continue`),
set `started`, run the conditioner section, write `p0`, write `p1`. -/
def loopStep (aec : AecMode) (cancel : List Int → List Int → List Int)
    (terminating : Bool) (st : LoopState) (inp : IterInput) : IterResult :=
  let res0 := route_stream_read terminating inp.r0dev st.r0
  let st0 := { st with r0 := res0.st }
  if res0.ret ≠ 0 then .restart st0 true
  else
    let res1 := route_stream_read terminating inp.r1dev st0.r1
    let st1 := { st0 with r1 := res1.st }
    if res1.ret = ERR_READ ∧ st1.started = true then .hangup st1
    else if res1.ret ≠ 0 then .restart st1 false
    else
      let st2 := { st1 with started := true }
      let st3 := applyAec aec cancel st2
      let res2 := route_stream_write terminating inp.p0rc st3.p0
      let st4 := { st3 with p0 := res2.st }
      let res3 := route_stream_write terminating inp.p1rc st4.p1
      let st5 := { st4 with p1 := res3.st }
      .forwarded st5 res2.written res3.written

/-- State carried out of an iteration result. -/
def IterResult.state : IterResult → LoopState
  | .restart st _ => st
  | .hangup st => st
  | .forwarded st _ _ => st

/-- Did the iteration exit the loop through the hangup `break`? -/
def IterResult.isHangup : IterResult → Bool
  | .hangup _ => true
  | _ => false

/-- Did the iteration call `blink_aux()` (the `r0`-failure path)? -/
def IterResult.blinked : IterResult → Bool
  | .restart _ b => b
  | _ => false

/-- Bytes handed to `snd_pcm_writei` on the local-playback stream `p0` this
iteration (`none` when the iteration did not reach the write). -/
def IterResult.wroteLocal : IterResult → Option (List Int)
  | .forwarded _ w0 _ => w0
  | _ => none

/-- Bytes handed to `snd_pcm_writei` on the remote-playback stream `p1` this
iteration (`none` when the iteration did not reach the write). -/
def IterResult.wroteRemote : IterResult → Option (List Int)
  | .forwarded _ _ w1 => w1
  | _ => none

/-- The `while (!terminating)` loop over a script of per-iteration device
outcomes, with the termination flag never set by a signal (the signal path
is modelled separately by `sighandler`).  Returns the loop state at exit and
the number of times the hangup `break` fired (the loop stops at the first
one, or when the script is exhausted). -/
def runLoop (aec : AecMode) (cancel : List Int → List Int → List Int) :
    List IterInput → LoopState → LoopState × Nat
  | [], st => (st, 0)
  | inp :: rest, st =>
    match loopStep aec cancel false st inp with
    | .restart st2 _ => runLoop aec cancel rest st2
    | .hangup st2 => (st2, 1)
    | .forwarded st2 _ _ => runLoop aec cancel rest st2

/-! ### Cleanup and the signal handler -/

/-- The four global streams as closed by `cleanup`. -/
structure Endpoints where
  p0 : route_stream
  p1 : route_stream
  r0 : route_stream
  r1 : route_stream
deriving Repr, DecidableEq

/-- `cleanup`: closes `p0`, `p1`, `r0`, `r1` in that order (LED reset and
`fclose(logfile)` not modelled); the events of the four closes are
concatenated in call order. -/
def cleanup (e : Endpoints) : Endpoints × List CloseEvent :=
  let c0 := close_route_stream e.p0
  let c1 := close_route_stream e.p1
  let c2 := close_route_stream e.r0
  let c3 := close_route_stream e.r1
  (⟨c0.1, c1.1, c2.1, c3.1⟩, c0.2 ++ c1.2 ++ c2.2 ++ c3.2)

/-- `sighandler`: returns immediately if `terminating` is already set,
otherwise sets it and runs `cleanup` (then the process exits).  Result:
(new terminating flag, endpoints after, whether cleanup ran). -/
def sighandler (terminating : Bool) (e : Endpoints) : Bool × Endpoints × Bool :=
  if terminating then (terminating, e, false)
  else (true, (cleanup e).1, true)

/-- The endpoints of a loop state, in `cleanup`'s view. -/
def LoopState.endpoints (st : LoopState) : Endpoints :=
  ⟨st.p0, st.p1, st.r0, st.r1⟩

/-- Result of a whole routing run: final loop state, number of hangup
transitions, number of cleanup passes, and the resource releases of
cleanup. -/
structure RunOutcome where
  final : Endpoints
  hangups : Nat
  cleanupPasses : Nat
  releases : List CloseEvent
deriving Repr, DecidableEq

/-- `main` after the streams are open: run the routing loop on the script,
then run `cleanup` exactly once (source lines 600..649: the loop, then the
single `cleanup()` call before `return 0`). -/
def mainRun (aec : AecMode) (cancel : List Int → List Int → List Int)
    (inputs : List IterInput) (st : LoopState) : RunOutcome :=
  let r := runLoop aec cancel inputs st
  let c := cleanup r.1.endpoints
  ⟨c.1, r.2, 1, c.2⟩

/-- The return code of `open_route_stream`, computed on its own: the code
depends only on the environment and on the two threshold configuration
fields of the stream (which `open_route_stream` and `close_route_stream`
never modify).  Mirrors the if-chain of `open_route_stream` exactly; used
to reason about repeated open attempts. -/
def open_rc (terminating : Bool) (env : OpenEnv) (start_th stop_th : Nat) : Int :=
  match env.pcm_open with
  | .error _ => err terminating ERR_PCM_OPEN_FAILED
  | .ok _ =>
    if env.hw_params_any < 0 then err terminating ERR_HW_PARAMS_ANY
    else if env.set_access < 0 then err terminating ERR_HW_PARAMS_SET_ACCESS
    else if env.set_format < 0 then err terminating ERR_HW_PARAMS_SET_FORMAT
    else if env.set_channels < 0 then err terminating ERR_HW_PARAMS_SET_CHANNELS
    else if env.set_rate < 0 then err terminating ERR_HW_PARAMS_SET_RATE
    else if env.set_period_size < 0 then err terminating ERR_HW_PARAMS_SET_PERIOD_SIZE
    else if env.set_buffer_size < 0 then err terminating ERR_HW_PARAMS_SET_BUFFER_SIZE
    else if env.hw_params < 0 then err terminating ERR_HW_PARAMS
    else if ¬ env.malloc_ok then err terminating ERR_BUFFER_ALLOC_FAILED
    else if start_th > 0 ∨ stop_th > 0 then
      if env.sw_params_current < 0 then err terminating ERR_SW_PARAMS_CURRENT
      else if start_th > 0 ∧ env.set_start_threshold < 0 then
        err terminating ERR_SW_PARAMS_SET_START_THRESHOLD
      else if stop_th > 0 ∧ env.set_stop_threshold < 0 then
        err terminating ERR_SW_PARAMS_SET_STOP_THRESHOLD
      else if env.sw_params < 0 then err terminating ERR_SW_PARAMS
      else 0
    else 0

/-- The null-handle-implies-null-buffer invariant that makes
`close_route_stream`'s early return leak-free. -/
def streamInv (s : route_stream) : Prop :=
  s.handle = none → s.period_buffer = none

/-! ### Shared fixtures (concrete streams, environments, loop states) -/

/-- A fully closed capture-style stream (thresholds 0), period 2 frames. -/
def capClosed : route_stream := ⟨0, 0, 8, 2, none, none, 0⟩

/-- A fully open capture-style stream with handle 5 and buffer `[0, 0]`. -/
def capOpen : route_stream := ⟨0, 0, 8, 2, some 5, some [0, 0], 4⟩

/-- An `OpenEnv` in which every ALSA call succeeds (new handle 1). -/
def envAllOk : OpenEnv := ⟨.ok 1, 0, 0, 0, 0, 0, 0, 0, 0, true, 0, 0, 0, 0⟩

/-- An `OpenEnv` in which `snd_pcm_open` succeeds (handle 1) but
`snd_pcm_hw_params_any` fails. -/
def envHwAnyFails : OpenEnv := ⟨.ok 1, -1, 0, 0, 0, 0, 0, 0, 0, true, 0, 0, 0, 0⟩

/-- An `OpenEnv` in which `snd_pcm_open` itself fails. -/
def envOpenFails : OpenEnv := ⟨.error (-2), 0, 0, 0, 0, 0, 0, 0, 0, true, 0, 0, 0, 0⟩

/-- A loop state with all four streams open (period 2), `started = true`,
stale `p0` buffer `[9, 9]` and stale `p1` buffer `[8, 8]`. -/
def stRouting : LoopState := ⟨true,
  ⟨1024, 1024, 8, 2, some 1, some [9, 9], 4⟩,
  ⟨0, 0, 8, 2, some 2, some [0, 0], 4⟩,
  ⟨1024, 1024, 8, 2, some 3, some [8, 8], 4⟩,
  ⟨0, 0, 8, 2, some 4, some [0, 0], 4⟩⟩

/-- Iteration input where both captures deliver a full period
(`r0` reads `[3, 4]`, `r1` reads `[1, 2]`) and both writes accept it. -/
def inpBothOk : IterInput := ⟨⟨2, [3, 4]⟩, ⟨2, [1, 2]⟩, 2, 2⟩

/-! ### Helper lemmas on the transfer primitives -/

/-- A full-period read succeeds and stores the captured data. -/
theorem read_full (dev : ReadOutcome) (s : route_stream)
    (h : dev.rc = (s.period_size : Int)) :
    route_stream_read false dev s =
      ⟨0, { s with period_buffer := some dev.data }, true, false⟩ := by
  have h0 : (0 : Int) ≤ dev.rc := by rw [h]; exact Int.natCast_nonneg _
  simp [route_stream_read, h, h0]

/-- A negative, non-`EPIPE` device result is classified `ERR_READ` and leaves
the stream untouched. -/
theorem read_fatal (dev : ReadOutcome) (s : route_stream)
    (h1 : dev.rc < 0) (h2 : dev.rc ≠ -EPIPE) :
    route_stream_read false dev s = ⟨ERR_READ, s, true, false⟩ := by
  have hc : (0 : Int) ≤ (s.period_size : Int) := Int.natCast_nonneg _
  have hne : dev.rc ≠ (s.period_size : Int) := by omega
  have h0 : ¬ (0 : Int) ≤ dev.rc := by omega
  simp [route_stream_read, hne, h2, h1, h0, err]

/-- An `-EPIPE` device result is classified `ERR_READ_OVERRUN`, resets the
device (`snd_pcm_prepare`) and leaves the stream untouched. -/
theorem read_overrun (dev : ReadOutcome) (s : route_stream)
    (h : dev.rc = -EPIPE) :
    route_stream_read false dev s = ⟨ERR_READ_OVERRUN, s, true, true⟩ := by
  have hc : (0 : Int) ≤ (s.period_size : Int) := Int.natCast_nonneg _
  have hne : (-EPIPE : Int) ≠ (s.period_size : Int) := by simp [EPIPE]
  have h0 : ¬ (0 : Int) ≤ (-EPIPE : Int) := by decide
  simp [route_stream_read, h, hne, h0]

/-- A short read (non-negative, below the period) is classified
`ERR_SHORT_READ`. -/
theorem read_short (dev : ReadOutcome) (s : route_stream)
    (h0 : 0 ≤ dev.rc) (h1 : dev.rc < (s.period_size : Int)) :
    route_stream_read false dev s =
      ⟨ERR_SHORT_READ, { s with period_buffer := some dev.data }, true, false⟩ := by
  have hne : dev.rc ≠ (s.period_size : Int) := by omega
  have hp : ¬ dev.rc = -EPIPE := by simp [EPIPE]; omega
  have hn : ¬ dev.rc < 0 := by omega
  simp [route_stream_read, hne, hp, hn, h0, err]

/-- C4: once the termination flag is set, every call to `route_stream_read`
or `route_stream_write` returns `ERR_TERMINATING` immediately, leaves the
stream untouched, and performs no device I/O (no `snd_pcm_readi`, no
`snd_pcm_writei`, no `snd_pcm_prepare`); since nothing in the program ever
clears the flag, no further device read or write is ever issued. -/
theorem terminating_short_circuits_all_transfers :
    (∀ (dev : ReadOutcome) (s : route_stream),
      route_stream_read true dev s = ⟨ERR_TERMINATING, s, false, false⟩) ∧
    (∀ (wrc : Int) (s : route_stream),
      route_stream_write true wrc s = ⟨ERR_TERMINATING, s, false, false, none⟩) :=
  ⟨fun _ _ => rfl, fun _ _ => rfl⟩

/-- A full-period write succeeds and hands the period buffer to the device. -/
theorem write_full (wrc : Int) (s : route_stream)
    (h : wrc = (s.period_size : Int)) :
    route_stream_write false wrc s = ⟨0, s, true, false, s.period_buffer⟩ := by
  simp [route_stream_write, h]

/-- An `-EPIPE` device result on write is classified `ERR_WRITE_UNDERRUN` and
resets the device. -/
theorem write_underrun (wrc : Int) (s : route_stream)
    (h : wrc = -EPIPE) :
    route_stream_write false wrc s =
      ⟨ERR_WRITE_UNDERRUN, s, true, true, s.period_buffer⟩ := by
  have hc : (0 : Int) ≤ (s.period_size : Int) := Int.natCast_nonneg _
  have hne : (-EPIPE : Int) ≠ (s.period_size : Int) := by simp [EPIPE]
  simp [route_stream_write, h, hne]

/-- A negative, non-`EPIPE` device result on write is classified `ERR_WRITE`. -/
theorem write_fatal (wrc : Int) (s : route_stream)
    (h1 : wrc < 0) (h2 : wrc ≠ -EPIPE) :
    route_stream_write false wrc s = ⟨ERR_WRITE, s, true, false, s.period_buffer⟩ := by
  have hc : (0 : Int) ≤ (s.period_size : Int) := Int.natCast_nonneg _
  have hne : wrc ≠ (s.period_size : Int) := by omega
  simp [route_stream_write, hne, h2, h1, err]

/-- A short write (non-negative, below the period) is classified
`ERR_SHORT_WRITE`. -/
theorem write_short (wrc : Int) (s : route_stream)
    (h0 : 0 ≤ wrc) (h1 : wrc < (s.period_size : Int)) :
    route_stream_write false wrc s =
      ⟨ERR_SHORT_WRITE, s, true, false, s.period_buffer⟩ := by
  have hne : wrc ≠ (s.period_size : Int) := by omega
  have hp : ¬ wrc = -EPIPE := by simp [EPIPE]; omega
  have hn : ¬ wrc < 0 := by omega
  simp [route_stream_write, hne, hp, hn, err]

/-- C5: with the termination flag clear, a read or write returns 0 (success)
iff the device transferred exactly `period_size` frames, and every other
device result (never exceeding the requested period) is classified as
exactly one of: overrun/underrun (`-EPIPE`, transient), other negative
(fatal), or short transfer (non-negative below the period) — a partial
transfer is never returned as success.  The hypotheses state the ALSA
contract that at most `period_size` frames are transferred. -/
theorem transfer_success_iff_full_period (dev : ReadOutcome) (s : route_stream)
    (wrc : Int) (t : route_stream)
    (hr : dev.rc ≤ (s.period_size : Int)) (hw : wrc ≤ (t.period_size : Int)) :
    (((route_stream_read false dev s).ret = 0 ↔ dev.rc = (s.period_size : Int)) ∧
     (dev.rc ≠ (s.period_size : Int) →
       (dev.rc = -EPIPE ∧ (route_stream_read false dev s).ret = ERR_READ_OVERRUN) ∨
       (dev.rc < 0 ∧ dev.rc ≠ -EPIPE ∧ (route_stream_read false dev s).ret = ERR_READ) ∨
       (0 ≤ dev.rc ∧ dev.rc < (s.period_size : Int) ∧
         (route_stream_read false dev s).ret = ERR_SHORT_READ))) ∧
    (((route_stream_write false wrc t).ret = 0 ↔ wrc = (t.period_size : Int)) ∧
     (wrc ≠ (t.period_size : Int) →
       (wrc = -EPIPE ∧ (route_stream_write false wrc t).ret = ERR_WRITE_UNDERRUN) ∨
       (wrc < 0 ∧ wrc ≠ -EPIPE ∧ (route_stream_write false wrc t).ret = ERR_WRITE) ∨
       (0 ≤ wrc ∧ wrc < (t.period_size : Int) ∧
         (route_stream_write false wrc t).ret = ERR_SHORT_WRITE))) := by
  constructor
  · constructor
    · constructor
      · intro hret
        by_contra hne
        rcases lt_trichotomy dev.rc 0 with hneg | hzero | hpos
        · by_cases hp : dev.rc = -EPIPE
          · rw [read_overrun dev s hp] at hret
            simp [ERR_READ_OVERRUN] at hret
          · rw [read_fatal dev s hneg hp] at hret
            simp [ERR_READ] at hret
        · rw [read_short dev s (le_of_eq hzero.symm) (lt_of_le_of_ne hr hne)] at hret
          simp [ERR_SHORT_READ] at hret
        · rw [read_short dev s (le_of_lt hpos) (lt_of_le_of_ne hr hne)] at hret
          simp [ERR_SHORT_READ] at hret
      · intro hfull
        rw [read_full dev s hfull]
    · intro hne
      by_cases hp : dev.rc = -EPIPE
      · exact Or.inl ⟨hp, by rw [read_overrun dev s hp]⟩
      · rcases lt_or_le dev.rc 0 with hneg | hpos
        · exact Or.inr (Or.inl ⟨hneg, hp, by rw [read_fatal dev s hneg hp]⟩)
        · exact Or.inr (Or.inr ⟨hpos, lt_of_le_of_ne hr hne,
            by rw [read_short dev s hpos (lt_of_le_of_ne hr hne)]⟩)
  · constructor
    · constructor
      · intro hret
        by_contra hne
        rcases lt_trichotomy wrc 0 with hneg | hzero | hpos
        · by_cases hp : wrc = -EPIPE
          · rw [write_underrun wrc t hp] at hret
            simp [ERR_WRITE_UNDERRUN] at hret
          · rw [write_fatal wrc t hneg hp] at hret
            simp [ERR_WRITE] at hret
        · rw [write_short wrc t (le_of_eq hzero.symm) (lt_of_le_of_ne hw hne)] at hret
          simp [ERR_SHORT_WRITE] at hret
        · rw [write_short wrc t (le_of_lt hpos) (lt_of_le_of_ne hw hne)] at hret
          simp [ERR_SHORT_WRITE] at hret
      · intro hfull
        rw [write_full wrc t hfull]
    · intro hne
      by_cases hp : wrc = -EPIPE
      · exact Or.inl ⟨hp, by rw [write_underrun wrc t hp]⟩
      · rcases lt_or_le wrc 0 with hneg | hpos
        · exact Or.inr (Or.inl ⟨hneg, hp, by rw [write_fatal wrc t hneg hp]⟩)
        · exact Or.inr (Or.inr ⟨hpos, lt_of_le_of_ne hw hne,
            by rw [write_short wrc t hpos (lt_of_le_of_ne hw hne)]⟩)

/-- Witness for C5 at a concrete input: a read of 1 frame out of a 2-frame
period on `capOpen` is classified as a short read, not success. -/
theorem transfer_success_iff_full_period_witness :
    (route_stream_read false ⟨1, [7]⟩ capOpen).ret = ERR_SHORT_READ := by
  rcases (transfer_success_iff_full_period ⟨1, [7]⟩ capOpen (-3) capOpen
      (by decide) (by decide)).1.2 (by decide) with h | h | h
  · exact absurd h.1 (by decide)
  · exact absurd h.1 (by decide)
  · exact h.2.2

/-! ### Lifecycle lemmas -/

/-- Closing any stream always leaves the handle null. -/
theorem close_handle_none (s : route_stream) :
    (close_route_stream s).1.handle = none := by
  unfold close_route_stream
  cases hh : s.handle with
  | none => simpa using hh
  | some h => cases hb : s.period_buffer <;> simp

/-- C9: `close_route_stream` is idempotent and release-safe: on an
already-closed stream (null handle) it is a no-op that releases nothing;
on an open stream it closes the handle exactly once, frees the buffer
exactly when one is allocated, and leaves the stream fully closed; closing
twice releases nothing the second time; and running the `cleanup` pass (all
four streams) a second time releases nothing, so repeated termination
signals cannot double-free. -/
theorem close_route_stream_idempotent :
    (∀ s : route_stream, s.handle = none → close_route_stream s = (s, [])) ∧
    (∀ (s : route_stream) (h : Nat), s.handle = some h →
      (close_route_stream s).1.handle = none ∧
      (close_route_stream s).1.period_buffer = none ∧
      (close_route_stream s).2 =
        CloseEvent.closedHandle h ::
          (if s.period_buffer.isSome then [CloseEvent.freedBuffer] else [])) ∧
    (∀ s : route_stream,
      close_route_stream (close_route_stream s).1 = ((close_route_stream s).1, [])) ∧
    (∀ e : Endpoints, (cleanup (cleanup e).1).2 = []) := by
  have hnone : ∀ s : route_stream, s.handle = none → close_route_stream s = (s, []) := by
    intro s hs
    unfold close_route_stream
    rw [hs]
  have hsome : ∀ (s : route_stream) (h : Nat), s.handle = some h →
      (close_route_stream s).1.handle = none ∧
      (close_route_stream s).1.period_buffer = none ∧
      (close_route_stream s).2 =
        CloseEvent.closedHandle h ::
          (if s.period_buffer.isSome then [CloseEvent.freedBuffer] else []) := by
    intro s h hs
    unfold close_route_stream
    rw [hs]
    cases hb : s.period_buffer <;> simp [hb]
  have htwice : ∀ s : route_stream,
      close_route_stream (close_route_stream s).1 = ((close_route_stream s).1, []) := by
    intro s
    exact hnone _ (close_handle_none s)
  refine ⟨hnone, hsome, htwice, ?_⟩
  intro e
  show (cleanup (cleanup e).1).2 = []
  have h0 := htwice e.p0
  have h1 := htwice e.p1
  have h2 := htwice e.r0
  have h3 := htwice e.r1
  simp [cleanup, h0, h1, h2, h3]

/-- Witness for C9 at concrete streams: closing the already-closed
`capClosed` is a no-op, and closing the open `capOpen` (handle 5, buffer
allocated) releases the handle and frees the buffer exactly once. -/
theorem close_route_stream_idempotent_witness :
    close_route_stream capClosed = (capClosed, []) ∧
    (close_route_stream capOpen).1.handle = none ∧
    (close_route_stream capOpen).1.period_buffer = none ∧
    (close_route_stream capOpen).2 =
      [CloseEvent.closedHandle 5, CloseEvent.freedBuffer] := by
  refine ⟨close_route_stream_idempotent.1 capClosed rfl, ?_⟩
  have h := close_route_stream_idempotent.2.1 capOpen 5 rfl
  exact ⟨h.1, h.2.1, by rw [h.2.2]; rfl⟩

/-- When `snd_pcm_open` fails, `open_route_stream` leaves the stream
unchanged. -/
theorem open_pcm_open_error (t : Bool) (env : OpenEnv) (s : route_stream)
    (e : Int) (hp : env.pcm_open = .error e) :
    open_route_stream t env s = (err t ERR_PCM_OPEN_FAILED, s) := by
  unfold open_route_stream
  rw [hp]

/-- Master case analysis of `open_route_stream`: its return code is
`open_rc` of the two threshold fields; the four configuration fields are
never modified; and when `snd_pcm_open` succeeds the new handle stays set
on every path (success or later failure). -/
theorem open_route_stream_cases (t : Bool) (env : OpenEnv) (s : route_stream) :
    (open_route_stream t env s).1 = open_rc t env s.start_threshold s.stop_threshold ∧
    (open_route_stream t env s).2.start_threshold = s.start_threshold ∧
    (open_route_stream t env s).2.stop_threshold = s.stop_threshold ∧
    (open_route_stream t env s).2.buffer_size = s.buffer_size ∧
    (open_route_stream t env s).2.period_size = s.period_size ∧
    (∀ e, env.pcm_open = .error e → (open_route_stream t env s).2 = s) ∧
    (∀ h, env.pcm_open = .ok h → (open_route_stream t env s).2.handle = some h) := by
  unfold open_route_stream open_rc
  cases hp : env.pcm_open with
  | error e =>
    exact ⟨rfl, rfl, rfl, rfl, rfl, fun _ _ => rfl, fun h hh => by simp at hh⟩
  | ok h =>
    dsimp only
    by_cases h1 : env.hw_params_any < 0
    · simp only [if_pos h1]
      exact ⟨trivial, trivial, trivial, trivial, trivial, fun e he => by simp at he,
        fun h2 hh => by simp at hh; rw [hh]⟩
    simp only [if_neg h1]
    by_cases h2 : env.set_access < 0
    · simp only [if_pos h2]
      exact ⟨trivial, trivial, trivial, trivial, trivial, fun e he => by simp at he,
        fun h2 hh => by simp at hh; rw [hh]⟩
    simp only [if_neg h2]
    by_cases h3 : env.set_format < 0
    · simp only [if_pos h3]
      exact ⟨trivial, trivial, trivial, trivial, trivial, fun e he => by simp at he,
        fun h2 hh => by simp at hh; rw [hh]⟩
    simp only [if_neg h3]
    by_cases h4 : env.set_channels < 0
    · simp only [if_pos h4]
      exact ⟨trivial, trivial, trivial, trivial, trivial, fun e he => by simp at he,
        fun h2 hh => by simp at hh; rw [hh]⟩
    simp only [if_neg h4]
    by_cases h5 : env.set_rate < 0
    · simp only [if_pos h5]
      exact ⟨trivial, trivial, trivial, trivial, trivial, fun e he => by simp at he,
        fun h2 hh => by simp at hh; rw [hh]⟩
    simp only [if_neg h5]
    by_cases h6 : env.set_period_size < 0
    · simp only [if_pos h6]
      exact ⟨trivial, trivial, trivial, trivial, trivial, fun e he => by simp at he,
        fun h2 hh => by simp at hh; rw [hh]⟩
    simp only [if_neg h6]
    by_cases h7 : env.set_buffer_size < 0
    · simp only [if_pos h7]
      exact ⟨trivial, trivial, trivial, trivial, trivial, fun e he => by simp at he,
        fun h2 hh => by simp at hh; rw [hh]⟩
    simp only [if_neg h7]
    by_cases h8 : env.hw_params < 0
    · simp only [if_pos h8]
      exact ⟨trivial, trivial, trivial, trivial, trivial, fun e he => by simp at he,
        fun h2 hh => by simp at hh; rw [hh]⟩
    simp only [if_neg h8]
    by_cases h9 : ¬ env.malloc_ok = true
    · simp only [if_pos h9]
      exact ⟨trivial, trivial, trivial, trivial, trivial, fun e he => by simp at he,
        fun h2 hh => by simp at hh; rw [hh]⟩
    simp only [if_neg h9]
    by_cases h10 : s.start_threshold > 0 ∨ s.stop_threshold > 0
    · simp only [if_pos h10]
      by_cases h11 : env.sw_params_current < 0
      · simp only [if_pos h11]
        exact ⟨trivial, trivial, trivial, trivial, trivial, fun e he => by simp at he,
          fun h2 hh => by simp at hh; rw [hh]⟩
      simp only [if_neg h11]
      by_cases h12 : s.start_threshold > 0 ∧ env.set_start_threshold < 0
      · simp only [if_pos h12]
        exact ⟨trivial, trivial, trivial, trivial, trivial, fun e he => by simp at he,
          fun h2 hh => by simp at hh; rw [hh]⟩
      simp only [if_neg h12]
      by_cases h13 : s.stop_threshold > 0 ∧ env.set_stop_threshold < 0
      · simp only [if_pos h13]
        exact ⟨trivial, trivial, trivial, trivial, trivial, fun e he => by simp at he,
          fun h2 hh => by simp at hh; rw [hh]⟩
      simp only [if_neg h13]
      by_cases h14 : env.sw_params < 0
      · simp only [if_pos h14]
        exact ⟨trivial, trivial, trivial, trivial, trivial, fun e he => by simp at he,
          fun h2 hh => by simp at hh; rw [hh]⟩
      simp only [if_neg h14]
      exact ⟨trivial, trivial, trivial, trivial, trivial, fun e he => by simp at he,
        fun h2 hh => by simp at hh; rw [hh]⟩
    simp only [if_neg h10]
    exact ⟨trivial, trivial, trivial, trivial, trivial, fun e he => by simp at he,
      fun h2 hh => by simp at hh; rw [hh]⟩

/-- When `snd_pcm_open` succeeds, every path through `open_route_stream`
(success or any later failure) leaves the new handle set. -/
theorem open_handle_some (t : Bool) (env : OpenEnv) (s : route_stream)
    (h : Nat) (hp : env.pcm_open = .ok h) :
    (open_route_stream t env s).2.handle = some h :=
  (open_route_stream_cases t env s).2.2.2.2.2.2 h hp

/-- `open_route_stream` preserves `streamInv`: when `snd_pcm_open` fails the
stream is unchanged, and on every other path the handle is set. -/
theorem open_preserves_streamInv (t : Bool) (env : OpenEnv) (s : route_stream)
    (hs : streamInv s) : streamInv (open_route_stream t env s).2 := by
  cases hp : env.pcm_open with
  | error e => rw [open_pcm_open_error t env s e hp]; exact hs
  | ok h =>
    intro hnone
    rw [open_handle_some t env s h hp] at hnone
    exact absurd hnone (by simp)

/-- `close_route_stream` establishes `streamInv` unconditionally. -/
theorem close_streamInv (s : route_stream) (hs : streamInv s) :
    streamInv (close_route_stream s).1 := by
  unfold close_route_stream
  cases hh : s.handle with
  | none => simpa [streamInv, hh] using hs
  | some h =>
    cases hb : s.period_buffer <;> simp [streamInv, hb]

/-- `close_route_stream` never changes the configuration fields. -/
theorem close_cfg_preserved (s : route_stream) :
    (close_route_stream s).1.start_threshold = s.start_threshold ∧
    (close_route_stream s).1.stop_threshold = s.stop_threshold := by
  unfold close_route_stream
  cases hh : s.handle with
  | none => exact ⟨rfl, rfl⟩
  | some h =>
    dsimp only
    cases hb : s.period_buffer <;> exact ⟨rfl, rfl⟩

/-- C10: the implicit invariant "null handle implies null buffer" is
preserved by `open_route_stream` (any outcome), by `close_route_stream`,
and by `open_route_stream_repeated` (when it returns); it is exactly what
makes `close_route_stream`'s early return on a null handle leak-free. -/
theorem handle_null_implies_buffer_null :
    (∀ (t : Bool) (env : OpenEnv) (s : route_stream),
      streamInv s → streamInv (open_route_stream t env s).2) ∧
    (∀ s : route_stream, streamInv s → streamInv (close_route_stream s).1) ∧
    (∀ (envs : Nat → OpenEnv) (s : route_stream) (fuel a sl : Nat)
      (s2 : route_stream), streamInv s →
      open_route_stream_repeated envs s fuel = some (a, sl, s2) → streamInv s2) := by
  refine ⟨open_preserves_streamInv, close_streamInv, ?_⟩
  have haux : ∀ (fuel : Nat) (envs : Nat → OpenEnv) (i sleeps : Nat)
      (s : route_stream) (a sl : Nat) (s2 : route_stream), streamInv s →
      openRepeatedAux envs i sleeps s fuel = some (a, sl, s2) → streamInv s2 := by
    intro fuel
    induction fuel with
    | zero =>
      intro envs i sleeps s a sl s2 hs h
      simp [openRepeatedAux] at h
    | succ n ih =>
      intro envs i sleeps s a sl s2 hs h
      simp only [openRepeatedAux] at h
      by_cases hrc : (open_route_stream false (envs i) s).1 = 0
      · rw [if_pos hrc] at h
        have h2 := Option.some.inj h
        have hs2 : s2 = (open_route_stream false (envs i) s).2 := by
          have := congrArg (fun p => p.2.2) h2
          exact this.symm
        rw [hs2]
        exact open_preserves_streamInv false (envs i) s hs
      · rw [if_neg hrc] at h
        exact ih envs (i + 1) (sleeps + 1) _ a sl s2
          (close_streamInv _ (open_preserves_streamInv false (envs i) s hs)) h
  intro envs s fuel a sl s2 hs h
  exact haux fuel envs 0 0 s a sl s2 hs h

/-- Witness for C10 at a concrete input: the invariant holds after a failed
open attempt on the closed stream `capClosed` (handle is set, so the
implication is vacuous), and after closing `capOpen`. -/
theorem handle_null_implies_buffer_null_witness :
    streamInv (open_route_stream false envHwAnyFails capClosed).2 ∧
    streamInv (close_route_stream capOpen).1 :=
  ⟨handle_null_implies_buffer_null.1 false envHwAnyFails capClosed (fun _ => rfl),
   handle_null_implies_buffer_null.2.1 capOpen (fun h => by simp [capOpen] at h)⟩

/-- C1 counterexample: `open_route_stream` is not atomic.  With
`snd_pcm_open` succeeding (handle 1) and `snd_pcm_hw_params_any` failing,
open returns the non-zero code `ERR_HW_PARAMS_ANY` yet the endpoint keeps
the open native handle — it is not fully closed when open returns. -/
theorem open_not_atomic_counterexample :
    (open_route_stream false envHwAnyFails capClosed).1 = ERR_HW_PARAMS_ANY ∧
    (open_route_stream false envHwAnyFails capClosed).1 ≠ 0 ∧
    (open_route_stream false envHwAnyFails capClosed).2.handle = some 1 := by
  decide

/-- C1 (amended): atomicity holds only at the retry-wrapper level: a failed
`open_route_stream` may leave the endpoint partially open (handle set,
buffer possibly allocated), and it is the `close_route_stream` call that
`open_route_stream_repeated` performs after each failed attempt that
restores the fully-closed state (null handle, null buffer), so no handle or
buffer leaks across attempts. -/
theorem open_then_close_fully_closed (env : OpenEnv) (s : route_stream)
    (hs : streamInv s)
    (hfail : (open_route_stream false env s).1 ≠ 0) :
    (close_route_stream (open_route_stream false env s).2).1.handle = none ∧
    (close_route_stream (open_route_stream false env s).2).1.period_buffer = none := by
  refine ⟨close_handle_none _, ?_⟩
  exact close_streamInv _ (open_preserves_streamInv false env s hs) (close_handle_none _)

/-- Witness for the amended C1 at the concrete failing open of
`open_not_atomic_counterexample`'s scenario. -/
theorem open_then_close_fully_closed_witness :
    (close_route_stream (open_route_stream false envHwAnyFails capClosed).2).1.handle
      = none ∧
    (close_route_stream (open_route_stream false envHwAnyFails capClosed).2).1.period_buffer
      = none :=
  open_then_close_fully_closed envHwAnyFails capClosed (fun _ => rfl) (by decide)

/-- The return code of `open_route_stream` depends only on the environment
and the two threshold configuration fields. -/
theorem open_fst (t : Bool) (env : OpenEnv) (s : route_stream) :
    (open_route_stream t env s).1 = open_rc t env s.start_threshold s.stop_threshold :=
  (open_route_stream_cases t env s).1

/-- One failed-then-closed retry attempt preserves both thresholds. -/
theorem retry_step_thresholds (env : OpenEnv) (s : route_stream) :
    (close_route_stream (open_route_stream false env s).2).1.start_threshold
        = s.start_threshold ∧
    (close_route_stream (open_route_stream false env s).2).1.stop_threshold
        = s.stop_threshold := by
  have hc := close_cfg_preserved (open_route_stream false env s).2
  have ho := open_route_stream_cases false env s
  exact ⟨hc.1.trans ho.2.1, hc.2.trans ho.2.2.1⟩

/-- Success case of the retry loop: if attempts `i .. i+m-1` fail and
attempt `i+m` succeeds (as judged by `open_rc` at the invariant threshold
configuration), then with enough fuel the loop returns after attempt
`i+m` having slept once per failure. -/
theorem openRepeatedAux_success (envs : Nat → OpenEnv) (s0 : route_stream) :
    ∀ (m i sleeps : Nat) (s : route_stream) (fuel : Nat),
      s.start_threshold = s0.start_threshold →
      s.stop_threshold = s0.stop_threshold →
      (∀ j, j < m →
        open_rc false (envs (i + j)) s0.start_threshold s0.stop_threshold ≠ 0) →
      open_rc false (envs (i + m)) s0.start_threshold s0.stop_threshold = 0 →
      m + 1 ≤ fuel →
      ∃ s2, openRepeatedAux envs i sleeps s fuel = some (i + m + 1, sleeps + m, s2) := by
  intro m
  induction m with
  | zero =>
    intro i sleeps s fuel h1 h2 hfails hsucc hfuel
    obtain ⟨f, rfl⟩ : ∃ f, fuel = f + 1 := ⟨fuel - 1, by omega⟩
    have hrc : (open_route_stream false (envs i) s).1 = 0 := by
      rw [open_fst, h1, h2]
      simpa using hsucc
    exact ⟨(open_route_stream false (envs i) s).2, by simp [openRepeatedAux, hrc]⟩
  | succ n ih =>
    intro i sleeps s fuel h1 h2 hfails hsucc hfuel
    obtain ⟨f, rfl⟩ : ∃ f, fuel = f + 1 := ⟨fuel - 1, by omega⟩
    have hrc : (open_route_stream false (envs i) s).1 ≠ 0 := by
      rw [open_fst, h1, h2]
      simpa using hfails 0 (by omega)
    have hth := retry_step_thresholds (envs i) s
    obtain ⟨s2, hs2⟩ := ih (i + 1) (sleeps + 1)
      (close_route_stream (open_route_stream false (envs i) s).2).1 f
      (hth.1.trans h1) (hth.2.trans h2)
      (fun j hj => by
        have := hfails (j + 1) (by omega)
        have harith : i + (j + 1) = i + 1 + j := by omega
        rwa [harith] at this)
      (by
        have harith : i + (n + 1) = i + 1 + n := by omega
        rwa [harith] at hsucc)
      (by omega)
    refine ⟨s2, ?_⟩
    have e1 : i + 1 + n + 1 = i + (n + 1) + 1 := by omega
    have e2 : sleeps + 1 + n = sleeps + (n + 1) := by omega
    rw [e1, e2] at hs2
    simpa [openRepeatedAux, hrc] using hs2

/-- While every attempt keeps failing, the retry loop never returns,
whatever fuel it is given. -/
theorem openRepeatedAux_all_fail (envs : Nat → OpenEnv) (s0 : route_stream) :
    ∀ (fuel i sleeps : Nat) (s : route_stream),
      s.start_threshold = s0.start_threshold →
      s.stop_threshold = s0.stop_threshold →
      (∀ j, open_rc false (envs j) s0.start_threshold s0.stop_threshold ≠ 0) →
      openRepeatedAux envs i sleeps s fuel = none := by
  intro fuel
  induction fuel with
  | zero => intro i sleeps s h1 h2 hfails; rfl
  | succ n ih =>
    intro i sleeps s h1 h2 hfails
    have hrc : (open_route_stream false (envs i) s).1 ≠ 0 := by
      rw [open_fst, h1, h2]
      exact hfails i
    have hth := retry_step_thresholds (envs i) s
    simpa [openRepeatedAux, hrc] using
      ih (i + 1) (sleeps + 1) _ (hth.1.trans h1) (hth.2.trans h2) hfails

/-- C7: for every `K ≥ 1`, if `open_route_stream` fails on the first `K − 1`
attempts and succeeds on the `K`-th, then `open_route_stream_repeated`
returns after exactly `K` open attempts with exactly `K − 1` backoff sleeps
(each failed attempt is followed by a `close_route_stream` before the
sleep, by definition of `openRepeatedAux`); and while every attempt keeps
failing it never returns (never gives up), whatever the fuel. -/
theorem retry_open_counts :
    (∀ (envs : Nat → OpenEnv) (s : route_stream) (K fuel : Nat),
      1 ≤ K →
      (∀ j, j < K - 1 → (open_route_stream false (envs j) s).1 ≠ 0) →
      (open_route_stream false (envs (K - 1)) s).1 = 0 →
      K ≤ fuel →
      ∃ s2, open_route_stream_repeated envs s fuel = some (K, K - 1, s2)) ∧
    (∀ (envs : Nat → OpenEnv) (s : route_stream) (fuel : Nat),
      (∀ j, (open_route_stream false (envs j) s).1 ≠ 0) →
      open_route_stream_repeated envs s fuel = none) := by
  constructor
  · intro envs s K fuel hK hfails hsucc hfuel
    obtain ⟨m, rfl⟩ : ∃ m, K = m + 1 := ⟨K - 1, by omega⟩
    have hm : m + 1 - 1 = m := by omega
    rw [hm] at hfails hsucc
    obtain ⟨s2, hs2⟩ := openRepeatedAux_success envs s m 0 0 s fuel rfl rfl
      (fun j hj => by
        have := hfails j (by omega)
        rw [open_fst] at this
        simpa using this)
      (by
        have := hsucc
        rw [open_fst] at this
        simpa using this)
      (by omega)
    exact ⟨s2, by simpa [open_route_stream_repeated] using hs2⟩
  · intro envs s fuel hfails
    exact openRepeatedAux_all_fail envs s fuel 0 0 s rfl rfl
      (fun j => by
        have := hfails j
        rw [open_fst] at this
        exact this)

/-- Witness for C7 at a concrete schedule: the first two attempts fail
(`snd_pcm_open` errors), the third succeeds — exactly 3 attempts, exactly 2
sleeps; and with every attempt failing the loop returns nothing even with
fuel 4. -/
theorem retry_open_counts_witness :
    (∃ s2, open_route_stream_repeated
      (fun j => if j < 2 then envOpenFails else envAllOk) capClosed 5 = some (3, 2, s2)) ∧
    open_route_stream_repeated (fun _ => envOpenFails) capClosed 4 = none := by
  constructor
  · exact retry_open_counts.1 (fun j => if j < 2 then envOpenFails else envAllOk)
      capClosed 3 5 (by omega) (by decide) (by decide) (by omega)
  · exact retry_open_counts.2 (fun _ => envOpenFails) capClosed 4
      (fun j => (by decide : (open_route_stream false envOpenFails capClosed).1 ≠ 0))

/-! ### Routing-loop theorems -/

/-- C2 (code bug): in the configuration with no echo conditioner compiled in
(neither `USE_SPEEX_AEC` nor `USE_WALKIE_TALKIE_AEC`), an iteration in which
both captures succeed writes the *stale* playback buffers: `p0` is written
with its old contents `[9, 9]` although remote capture just read `[1, 2]`,
and `p1` with its old `[8, 8]` although local capture just read `[3, 4]` —
no copy from the capture buffers to the playback buffers happens at all,
contradicting the documented identity routing. -/
theorem no_conditioner_forwards_stale_bytes :
    (loopStep .noAec (fun a _ => a) false stRouting inpBothOk).wroteLocal
      = some [9, 9] ∧
    (loopStep .noAec (fun a _ => a) false stRouting inpBothOk).wroteRemote
      = some [8, 8] ∧
    (loopStep .noAec (fun a _ => a) false stRouting inpBothOk).state.r1.period_buffer
      = some [1, 2] ∧
    (loopStep .noAec (fun a _ => a) false stRouting inpBothOk).state.r0.period_buffer
      = some [3, 4] ∧
    some ([9, 9] : List Int) ≠ some [1, 2] ∧
    some ([8, 8] : List Int) ≠ some [3, 4] := by
  decide

/-- In the shipped `USE_SPEEX_AEC` configuration the `memmove` does copy the
remote-capture bytes into the local-playback buffer, and the remote-playback
buffer carries the conditioner's output on the local-capture bytes: the
identity round trip holds for the local-playback path (and for the
remote-playback path exactly when the conditioner is the identity). -/
theorem speex_mode_forwards_remote_capture :
    (loopStep .speexAec (fun a _ => a) false stRouting inpBothOk).wroteLocal
      = some [1, 2] ∧
    (loopStep .speexAec (fun a _ => a) false stRouting inpBothOk).wroteRemote
      = some [3, 4] := by
  decide

/-- C3: a fatal remote-capture fault (negative, non-`EPIPE` device result,
classified `ERR_READ`) after a successful local-capture read causes the
hangup `break` exactly when `started` is set; with `started` still clear the
iteration merely restarts.  The loop as a whole fires the hangup break at
most once (it stops there, ignoring the rest of the script), and the run
performs exactly one cleanup pass. -/
theorem hangup_only_when_routing :
    (∀ (aec : AecMode) (cancel : List Int → List Int → List Int)
      (st : LoopState) (inp : IterInput),
      st.started = true →
      inp.r0dev.rc = (st.r0.period_size : Int) →
      inp.r1dev.rc < 0 → inp.r1dev.rc ≠ -EPIPE →
      ∃ st2, loopStep aec cancel false st inp = .hangup st2) ∧
    (∀ (aec : AecMode) (cancel : List Int → List Int → List Int)
      (st : LoopState) (inp : IterInput),
      st.started = false →
      inp.r0dev.rc = (st.r0.period_size : Int) →
      inp.r1dev.rc < 0 → inp.r1dev.rc ≠ -EPIPE →
      ∃ st2, loopStep aec cancel false st inp = .restart st2 false) ∧
    (∀ (aec : AecMode) (cancel : List Int → List Int → List Int)
      (inputs : List IterInput) (st : LoopState),
      (runLoop aec cancel inputs st).2 ≤ 1) ∧
    (∀ (aec : AecMode) (cancel : List Int → List Int → List Int)
      (st : LoopState) (inp : IterInput) (rest : List IterInput) (st2 : LoopState),
      loopStep aec cancel false st inp = .hangup st2 →
      runLoop aec cancel (inp :: rest) st = (st2, 1)) ∧
    (∀ (aec : AecMode) (cancel : List Int → List Int → List Int)
      (inputs : List IterInput) (st : LoopState),
      (mainRun aec cancel inputs st).cleanupPasses = 1) := by
  refine ⟨?_, ?_, ?_, ?_, ?_⟩
  · intro aec cancel st inp hst h0 h1 h2
    have e0 := read_full inp.r0dev st.r0 h0
    have e1 := read_fatal inp.r1dev st.r1 h1 h2
    refine ⟨{ st with r0 := { st.r0 with period_buffer := some inp.r0dev.data } }, ?_⟩
    simp [loopStep, e0, e1, hst]
  · intro aec cancel st inp hst h0 h1 h2
    have e0 := read_full inp.r0dev st.r0 h0
    have e1 := read_fatal inp.r1dev st.r1 h1 h2
    refine ⟨{ st with r0 := { st.r0 with period_buffer := some inp.r0dev.data } }, ?_⟩
    simp [loopStep, e0, e1, hst, ERR_READ]
  · intro aec cancel inputs
    induction inputs with
    | nil => intro st; simp [runLoop]
    | cons inp rest ih =>
      intro st
      cases h : loopStep aec cancel false st inp with
      | restart st2 b => simpa [runLoop, h] using ih st2
      | hangup st2 => simp [runLoop, h]
      | forwarded st2 w0 w1 => simpa [runLoop, h] using ih st2
  · intro aec cancel st inp rest st2 h
    simp [runLoop, h]
  · intro aec cancel inputs st
    rfl

/-- Witness for C3 at concrete inputs: from the routing state (`started`),
the fatal remote-capture fault `-5` triggers the hangup break; from the
not-yet-started state the very same device outcomes merely restart the
iteration. -/
theorem hangup_only_when_routing_witness :
    (∃ st2, loopStep .noAec (fun a _ => a) false stRouting
      ⟨⟨2, [3, 4]⟩, ⟨-5, []⟩, 2, 2⟩ = .hangup st2) ∧
    (∃ st2, loopStep .noAec (fun a _ => a) false { stRouting with started := false }
      ⟨⟨2, [3, 4]⟩, ⟨-5, []⟩, 2, 2⟩ = .restart st2 false) :=
  ⟨hangup_only_when_routing.1 .noAec (fun a _ => a) stRouting
      ⟨⟨2, [3, 4]⟩, ⟨-5, []⟩, 2, 2⟩ rfl (by decide) (by decide) (by decide),
   hangup_only_when_routing.2.1 .noAec (fun a _ => a) { stRouting with started := false }
      ⟨⟨2, [3, 4]⟩, ⟨-5, []⟩, 2, 2⟩ rfl (by decide) (by decide) (by decide)⟩

/-- C6: an overrun (`-EPIPE`) on a read makes the transfer primitive reset
the device (`snd_pcm_prepare`) and return the transient `ERR_READ_OVERRUN`;
in the routing loop an overrun on either capture restarts the iteration —
the result is a `restart`, never `hangup` and never a `forwarded` write, so
no data is forwarded that cycle and the session is not terminated. -/
theorem overrun_reset_and_restart :
    (∀ (dev : ReadOutcome) (s : route_stream), dev.rc = -EPIPE →
      route_stream_read false dev s = ⟨ERR_READ_OVERRUN, s, true, true⟩) ∧
    (∀ (aec : AecMode) (cancel : List Int → List Int → List Int)
      (st : LoopState) (inp : IterInput),
      inp.r0dev.rc = (st.r0.period_size : Int) →
      inp.r1dev.rc = -EPIPE →
      ∃ st2, loopStep aec cancel false st inp = .restart st2 false) ∧
    (∀ (aec : AecMode) (cancel : List Int → List Int → List Int)
      (st : LoopState) (inp : IterInput),
      inp.r0dev.rc = -EPIPE →
      ∃ st2, loopStep aec cancel false st inp = .restart st2 true) := by
  refine ⟨read_overrun, ?_, ?_⟩
  · intro aec cancel st inp h0 h1
    have e0 := read_full inp.r0dev st.r0 h0
    have e1 := read_overrun inp.r1dev st.r1 h1
    refine ⟨{ st with r0 := { st.r0 with period_buffer := some inp.r0dev.data } }, ?_⟩
    simp [loopStep, e0, e1, ERR_READ_OVERRUN, ERR_READ]
  · intro aec cancel st inp h0
    have e0 := read_overrun inp.r0dev st.r0 h0
    refine ⟨st, ?_⟩
    simp [loopStep, e0, ERR_READ_OVERRUN]

/-- Witness for C6 at concrete inputs: an `-EPIPE` read on the open stream
`capOpen` resets and reports the overrun; an overrun on the remote capture
(after a good local read) restarts the iteration, as does an overrun on the
local capture. -/
theorem overrun_reset_and_restart_witness :
    route_stream_read false ⟨-32, []⟩ capOpen = ⟨ERR_READ_OVERRUN, capOpen, true, true⟩ ∧
    (∃ st2, loopStep .noAec (fun a _ => a) false stRouting
      ⟨⟨2, [3, 4]⟩, ⟨-32, []⟩, 2, 2⟩ = .restart st2 false) ∧
    (∃ st2, loopStep .noAec (fun a _ => a) false stRouting
      ⟨⟨-32, []⟩, ⟨2, [1, 2]⟩, 2, 2⟩ = .restart st2 true) :=
  ⟨overrun_reset_and_restart.1 ⟨-32, []⟩ capOpen (by decide),
   overrun_reset_and_restart.2.1 .noAec (fun a _ => a) stRouting
      ⟨⟨2, [3, 4]⟩, ⟨-32, []⟩, 2, 2⟩ (by decide) (by decide),
   overrun_reset_and_restart.2.2 .noAec (fun a _ => a) stRouting
      ⟨⟨-32, []⟩, ⟨2, [1, 2]⟩, 2, 2⟩ (by decide)⟩

/-- C8 counterexample: the status indicator is pulsed on a *non-overrun*
local-capture failure too.  A fatal device result `-5` on `r0` (classified
`ERR_READ`, not the overrun code) still makes the iteration call
`blink_aux()`. -/
theorem blink_on_nonoverrun_counterexample :
    (loopStep .noAec (fun a _ => a) false stRouting
      ⟨⟨-5, []⟩, ⟨2, [1, 2]⟩, 2, 2⟩).blinked = true ∧
    (route_stream_read false ⟨-5, []⟩ stRouting.r0).ret = ERR_READ ∧
    ERR_READ ≠ ERR_READ_OVERRUN := by
  decide

/-- C8 (amended): the iteration pulses the status indicator (calls
`blink_aux`) exactly when the local-capture read returns any non-success
outcome — overrun or not; a successful local-capture read never pulses it
from this path. -/
theorem blink_iff_local_capture_fails (aec : AecMode)
    (cancel : List Int → List Int → List Int) (st : LoopState) (inp : IterInput) :
    (loopStep aec cancel false st inp).blinked = true ↔
      (route_stream_read false inp.r0dev st.r0).ret ≠ 0 := by
  by_cases h : (route_stream_read false inp.r0dev st.r0).ret ≠ 0
  · simp [loopStep, h, IterResult.blinked]
  · simp only [loopStep, h, if_false]
    push_neg at h
    simp only [h, ne_eq, not_true_eq_false, if_false]
    split_ifs <;> simp [IterResult.blinked]
